import Mathlib

/-!
Shallow embedding of the mayrabsilva/ai-workshop repository and proofs
about it.  The repository holds two artifacts: a Slurm batch submission
script (src/unnamed/part_000) and the tutorial notebook
src/01-solve-pde-example/Modulus_Anatomy.ipynb together with the
config.yaml it displays.  The definitions below transcribe those files;
the theorems check the specification's statements against them.
-/

namespace AIWorkshop

/-- A Slurm SBATCH directive as it can appear in the header of a batch
submission script.  The script under study uses the first seven
constructors; `cpusPerTask` and `otherDirective` cover directives a
script could declare but this one does not. -/
inductive SbatchDirective where
  | jobName (name : String)
  | nodeCount (n : Nat)
  | taskCount (n : Nat)
  | memPerCpu (megabytes : Nat)
  | partition (name : String)
  | gpus (model : String) (count : Nat)
  | timeLimit (hours minutes seconds : Nat)
  | cpusPerTask (n : Nat)
  | otherDirective (flag value : String)
deriving DecidableEq

/-- The SBATCH header of the submission script, in source order:
job-name=modulus-test, nodes=1, ntasks=8, mem-per-cpu=7000mb,
partition=gpu, gpus=a100:8, time=12:30:00. -/
def sbatchDirectives : List SbatchDirective :=
  [ .jobName "modulus-test",
    .nodeCount 1,
    .taskCount 8,
    .memPerCpu 7000,
    .partition "gpu",
    .gpus "a100" 8,
    .timeLimit 12 30 0 ]

/-- The kind of resource request a directive makes, forgetting its value. -/
inductive DirectiveKind where
  | jobNameK
  | nodeCountK
  | taskCountK
  | memPerCpuK
  | partitionK
  | gpuK
  | timeLimitK
  | cpusPerTaskK
  | otherK
deriving DecidableEq

/-- Classify a directive by the resource it requests. -/
def directiveKind : SbatchDirective → DirectiveKind
  | .jobName _ => .jobNameK
  | .nodeCount _ => .nodeCountK
  | .taskCount _ => .taskCountK
  | .memPerCpu _ => .memPerCpuK
  | .partition _ => .partitionK
  | .gpus _ _ => .gpuK
  | .timeLimit _ _ _ => .timeLimitK
  | .cpusPerTask _ => .cpusPerTaskK
  | .otherDirective _ _ => .otherK

/-- The task count declared by the first ntasks directive, if any. -/
def declaredTaskCount (ds : List SbatchDirective) : Option Nat :=
  ds.findSome? fun d => match d with
    | .taskCount n => some n
    | _ => none

/-- The accelerator model and count declared by the first gpus directive,
if any. -/
def declaredGpu (ds : List SbatchDirective) : Option (String × Nat) :=
  ds.findSome? fun d => match d with
    | .gpus m n => some (m, n)
    | _ => none

/-- An option passed to srun on the launch line. -/
inductive SrunOpt where
  | mpiMode (mode : String)
  | processCount (n : Nat)
  | unbuffered
deriving DecidableEq

/-- A command line of the script body.  `ifThenElse`, `whileLoop`,
`orElse` and `trapCmd` are the shapes retry, backoff or fallback logic
would take in bash; the script under study uses none of them. -/
inductive BashCmd where
  | moduleCmd (args : List String)
  | commentLine (text : String)
  | srunLaunch (opts : List SrunOpt) (program : List String)
  | ifThenElse (cond body elseBody : List String)
  | whileLoop (cond body : List String)
  | orElse (first fallback : List String)
  | trapCmd (handler sig : String)
deriving DecidableEq

/-- The body of the submission script after the SBATCH header, in source
order: module purge, module load ufrc modulus, one commented-out srun
line, and the single live srun launch. -/
def submitCommands : List BashCmd :=
  [ .moduleCmd ["purge"],
    .moduleCmd ["load", "ufrc", "modulus"],
    .commentLine "srun --unbuffered --mpi=none -n 8 python lennard_jones_system.py",
    .srunLaunch [.mpiMode "none", .processCount 8] ["python", "lennard_jones_system.py"] ]

/-- A command is a launch when it is a live srun line. -/
def isLaunch : BashCmd → Bool
  | .srunLaunch _ _ => true
  | _ => false

/-- A command shape that retries, falls back, traps a failure, or
branches: the forms recovery logic would take.  Module commands,
comments and a bare launch are not failure handling. -/
def handlesFailure : BashCmd → Bool
  | .ifThenElse _ _ _ => true
  | .whileLoop _ _ => true
  | .orElse _ _ => true
  | .trapCmd _ _ => true
  | _ => false

/-- The process count given by the first -n option of an srun line. -/
def srunProcessCount (opts : List SrunOpt) : Option Nat :=
  opts.findSome? fun o => match o with
    | .processCount n => some n
    | _ => none

/-- The mode given by the first --mpi option of an srun line. -/
def srunMpiMode (opts : List SrunOpt) : Option String :=
  opts.findSome? fun o => match o with
    | .mpiMode m => some m
    | _ => none

/-- The process count of the first live srun launch in a script. -/
def launchProcessCount (cmds : List BashCmd) : Option Nat :=
  cmds.findSome? fun c => match c with
    | .srunLaunch opts _ => srunProcessCount opts
    | _ => none

/-- The target script path of a launch: the last word of the launched
program line. -/
def targetScript (program : List String) : Option String :=
  program.getLast?

/-- An entry of the Hydra defaults list in config.yaml. -/
inductive DefaultsEntry where
  | baseConfig (name : String)
  | schedulerChoice (name : String)
  | optimizerChoice (name : String)
  | lossChoice (name : String)
  | selfEntry
deriving DecidableEq

/-- The kind of an entry of the defaults list, forgetting the name. -/
inductive DefaultsKind where
  | baseK
  | schedulerK
  | optimizerK
  | lossK
  | selfK
deriving DecidableEq

/-- Classify a defaults entry. -/
def defaultsKind : DefaultsEntry → DefaultsKind
  | .baseConfig _ => .baseK
  | .schedulerChoice _ => .schedulerK
  | .optimizerChoice _ => .optimizerK
  | .lossChoice _ => .lossK
  | .selfEntry => .selfK

/-- The scheduler hyperparameter block of config.yaml. -/
structure SchedulerCfg where
  decay_rate : ℚ
  decay_steps : Nat
deriving DecidableEq

/-- The training block of config.yaml. -/
structure TrainingCfg where
  rec_results_freq : Nat
  rec_constraint_freq : Nat
  max_steps : Nat
deriving DecidableEq

/-- The whole surface of config.yaml. -/
structure ConfigFile where
  defaults : List DefaultsEntry
  scheduler : SchedulerCfg
  save_filetypes : List String
  training : TrainingCfg
deriving DecidableEq

/-- The config.yaml shown in the notebook, transcribed field by field. -/
def configYaml : ConfigFile :=
  { defaults := [ .baseConfig "modulus_default",
                  .schedulerChoice "tf_exponential_lr",
                  .optimizerChoice "adam",
                  .lossChoice "sum",
                  .selfEntry ],
    scheduler := { decay_rate := 95 / 100, decay_steps := 200 },
    save_filetypes := ["vtk", "npz"],
    training := { rec_results_freq := 1000, rec_constraint_freq := 1000, max_steps := 5000 } }

/-- A phase of the notebook walkthrough.  The seven phases the
specification lists, plus the logging-setup cell that sits between
domain assembly and the solver run. -/
inductive NbPhase where
  | loadConfig
  | buildGeometry
  | buildNodes
  | assembleDomain
  | setupLogging
  | runSolver
  | loadResults
  | plotResults
deriving DecidableEq

/-- Position of a phase in the linear workflow. -/
def phaseRank : NbPhase → Nat
  | .loadConfig => 0
  | .buildGeometry => 1
  | .buildNodes => 2
  | .assembleDomain => 3
  | .setupLogging => 4
  | .runSolver => 5
  | .loadResults => 6
  | .plotResults => 7

/-- A Python statement shape.  The notebook only ever uses imports,
assignments, bare expression statements and one class definition;
`tryExceptStmt` and `raiseStmt` are the shapes failure handling would
take. -/
inductive PyStmt where
  | importStmt (names : List String)
  | assignStmt (target expr : String)
  | exprStmt (expr : String)
  | classDefStmt (name : String) (methods : List String)
  | tryExceptStmt (body handler : String)
  | raiseStmt (exc : String)
deriving DecidableEq

/-- One step of the notebook: the phase it belongs to and the statements
of the corresponding code cell (the final cell contributes two steps,
its load half and its plot half). -/
structure NotebookStep where
  phase : NbPhase
  stmts : List PyStmt
deriving DecidableEq

/-- The code cells of Modulus_Anatomy.ipynb in order, statement by
statement.  Call expressions are transcribed with their keyword
arguments spelled inline. -/
def notebookProgram : List NotebookStep :=
  [ { phase := .loadConfig,
      stmts := [ .importStmt ["modulus", "modulus.sym.hydra.to_yaml",
                   "modulus.sym.hydra.utils.compose", "modulus.sym.hydra.config.ModulusConfig"],
                 .assignStmt "cfg" "compose(config_path=./, config_name=config)",
                 .assignStmt "cfg.network_dir" "outputs",
                 .exprStmt "print(to_yaml(cfg))" ] },
    { phase := .buildGeometry,
      stmts := [ .importStmt ["sympy.Symbol", "modulus.sym.geometry.primitives_1d.Line1D"],
                 .assignStmt "x" "Symbol(x)",
                 .assignStmt "geo" "Line1D(0, 1)" ] },
    { phase := .buildGeometry,
      stmts := [ .assignStmt "samples" "geo.sample_boundary(5)",
                 .exprStmt "print(Boundary Samples, samples)",
                 .assignStmt "samples" "geo.sample_interior(5)",
                 .exprStmt "print(Interior Samples, samples)" ] },
    { phase := .buildNodes,
      stmts := [ .importStmt ["sympy.Symbol", "sympy.Number", "sympy.Function",
                   "modulus.sym.eq.pde.PDE"],
                 .classDefStmt "CustomPDE" ["__init__"] ] },
    { phase := .buildNodes,
      stmts := [ .importStmt ["modulus.sym.models.fully_connected.FullyConnectedArch",
                   "modulus.sym.key.Key"],
                 .assignStmt "eq" "CustomPDE(f=1.0)",
                 .assignStmt "u_net" "FullyConnectedArch(input_keys=[Key(x)], output_keys=[Key(u)], nr_layers=3, layer_size=32)",
                 .assignStmt "nodes" "eq.make_nodes() + [u_net.make_node(name=u_network)]" ] },
    { phase := .assembleDomain,
      stmts := [ .importStmt ["modulus.sym.domain.Domain"],
                 .assignStmt "domain" "Domain()" ] },
    { phase := .assembleDomain,
      stmts := [ .importStmt ["modulus.sym.domain.constraint.PointwiseBoundaryConstraint",
                   "modulus.sym.domain.constraint.PointwiseInteriorConstraint"],
                 .assignStmt "bc" "PointwiseBoundaryConstraint(nodes=nodes, geometry=geo, outvar u=0, batch_size=2)",
                 .exprStmt "domain.add_constraint(bc, bc)",
                 .assignStmt "interior" "PointwiseInteriorConstraint(nodes=nodes, geometry=geo, outvar custom_pde=0, batch_size=100, bounds x=(0, 1))",
                 .exprStmt "domain.add_constraint(interior, interior)" ] },
    { phase := .assembleDomain,
      stmts := [ .importStmt ["numpy", "modulus.sym.domain.inferencer.PointwiseInferencer"],
                 .assignStmt "inference" "PointwiseInferencer(nodes=nodes, invar x=np.linspace(0, 1.0, 100).reshape(-1,1), output_names=[u])",
                 .exprStmt "domain.add_inferencer(inference, inf_data)" ] },
    { phase := .setupLogging,
      stmts := [ .importStmt ["logging"],
                 .exprStmt "logging.getLogger().addHandler(logging.StreamHandler())" ] },
    { phase := .runSolver,
      stmts := [ .importStmt ["os", "modulus.sym.solver.Solver"],
                 .assignStmt "slv" "Solver(cfg, domain)",
                 .exprStmt "slv.solve()" ] },
    { phase := .loadResults,
      stmts := [ .importStmt ["matplotlib.pyplot", "numpy"],
                 .assignStmt "data" "np.load(./outputs/inferencers/inf_data.npz, allow_pickle=True)",
                 .assignStmt "data" "np.atleast_1d(data.f.arr_0)[0]" ] },
    { phase := .plotResults,
      stmts := [ .exprStmt "plt.figure()",
                 .assignStmt "x" "data[x].flatten()",
                 .assignStmt "pred_u" "data[u].flatten()",
                 .exprStmt "plt.plot(np.sort(x), pred_u[np.argsort(x)], label=Neural Solver)",
                 .exprStmt "plt.plot(np.sort(x), 0.5*(np.sort(x)*(np.sort(x)-1)), label=(1/2)(x-1)x)",
                 .assignStmt "x_np" "np.array([0., 1.])",
                 .assignStmt "u_np" "0.5*(x_np-1)*x_np",
                 .exprStmt "plt.scatter(x_np, u_np, label=BC)",
                 .exprStmt "plt.legend()",
                 .exprStmt "plt.show()" ] } ]

/-- The phases of the notebook steps in source order. -/
def notebookPhases : List NbPhase :=
  notebookProgram.map NotebookStep.phase

/-- Every statement of every code cell, in source order. -/
def allNotebookStmts : List PyStmt :=
  (notebookProgram.map NotebookStep.stmts).flatten

/-- A statement catches or intercepts a failure only if it is a
try/except block. -/
def catchesFailure : PyStmt → Bool
  | .tryExceptStmt _ _ => true
  | _ => false

/-- The one inferencer the notebook registers: run name inf_data, input
variable x sampled at 100 points, output variable u. -/
structure InferencerSpec where
  runName : String
  inputVarNames : List String
  outputVarNames : List String
  pointCount : Nat
deriving DecidableEq

/-- The PointwiseInferencer added as inf_data. -/
def infDataRun : InferencerSpec :=
  { runName := "inf_data",
    inputVarNames := ["x"],
    outputVarNames := ["u"],
    pointCount := 100 }

/-- On-disk formats the configuration can select for results. -/
inductive ArchiveFormat where
  | npz
  | vtkFile
  | csvFile
  | rawText
deriving DecidableEq

/-- Modelled from the spec: the npz files the external solver writes are
compressed numeric archives; the other formats are not. -/
def isCompressedNumericArchive : ArchiveFormat → Bool
  | .npz => true
  | _ => false

/-- A result file on disk as the notebook sees it. -/
structure ResultArchive where
  path : String
  format : ArchiveFormat
  arrayNames : List String
deriving DecidableEq

/-- The one result file the final cell reads: the archive named after the
single inferencer run, holding the per-point arrays for x and u. -/
def infDataArchive : ResultArchive :=
  { path := "./outputs/inferencers/inf_data.npz",
    format := .npz,
    arrayNames := ["x", "u"] }

/-- A way the notebook could use an array loaded from a result archive. -/
inductive DataUse where
  | linePlot (xArg yArg : String)
  | scatterPlot (xArg yArg : String)
  | writeToDisk (path : String)
  | feedToSolver (what : String)
  | numericReuse (what : String)
deriving DecidableEq

/-- Every place the final cell uses the loaded arrays: the predicted
curve, and the analytic overlay that reuses the loaded x values as its
sample points.  The scatter of boundary points uses a fresh x_np array,
not the loaded data. -/
def loadedArrayUses : List DataUse :=
  [ .linePlot "np.sort(x)" "pred_u[np.argsort(x)]",
    .linePlot "np.sort(x)" "0.5*(np.sort(x)*(np.sort(x)-1))" ]

/-- A use is plotting when it draws a curve or a scatter. -/
def isPlotUse : DataUse → Bool
  | .linePlot _ _ => true
  | .scatterPlot _ _ => true
  | _ => false

/-- A sympy-style symbolic expression, as far as the notebook builds
one: symbols, numeric literals, applied functions, subtraction and
differentiation. -/
inductive SymExpr where
  | symbol (name : String)
  | numberLit (q : ℚ)
  | funcApp (fname : String) (args : List String)
  | sub (a b : SymExpr)
  | diffN (e : SymExpr) (var : String) (order : Nat)
deriving DecidableEq

/-- A Python value that could be passed as the f argument of
CustomPDE.__init__. -/
inductive PyValue where
  | pyStr (s : String)
  | pyFloat (q : ℚ)
  | pyInt (n : ℤ)
  | pyBool (b : Bool)
  | pySympy (e : SymExpr)
  | pyNone
deriving DecidableEq

/-- What the constructor turns the f argument into before it builds the
equation. -/
inductive SourceTerm where
  | asFunc (fname : String) (inputVars : List String)
  | asNumber (q : ℚ)
  | unchanged (v : PyValue)
deriving DecidableEq

/-- The source-term dispatch in CustomPDE.__init__: a str f becomes
Function(f) applied to the input variables (just x here), a float or an
int becomes Number(f), and any other value falls through unchanged.
Python tests the exact type with `type(f) is str` and
`type(f) in [float, int]`, so a bool is not an int here and also falls
through.  The dispatch is total: no branch raises. -/
def resolveSourceTerm : PyValue → SourceTerm
  | .pyStr s => .asFunc s ["x"]
  | .pyFloat q => .asNumber q
  | .pyInt n => .asNumber (n : ℚ)
  | v => .unchanged v

/-- The single equation CustomPDE registers under the key custom_pde:
u.diff(x, 2) - f. -/
def customPdeEquation (f : SymExpr) : SymExpr :=
  .sub (.diffN (.funcApp "u" ["x"]) "x" 2) f

/-- The argument the notebook passes: CustomPDE(f=1.0). -/
def notebookSourceArg : PyValue := .pyFloat 1

/-- The resolved source term of the notebook instance. -/
def notebookSourceTerm : SourceTerm := resolveSourceTerm notebookSourceArg

/-- Numeric value of the notebook source term f = 1.0. -/
def customPdeF : ℝ := 1

/-- Left endpoint of the geometry Line1D(0, 1). -/
def line1dLeft : ℝ := 0

/-- Right endpoint of the geometry Line1D(0, 1). -/
def line1dRight : ℝ := 1

/-- Target value of the boundary constraint outvar u: 0. -/
def bcTargetU : ℝ := 0

/-- The analytic reference curve plotted in the final cell:
0.5*(x*(x-1)). -/
def uAnalytic : ℝ → ℝ := fun x => 0.5 * (x * (x - 1))

/-- C1: the SBATCH header declares exactly one directive of each of the
seven kinds the spec lists — job name, node count, task count, memory
per CPU (with no cpus-per-task directive present, one CPU per task, so
this is the per-task memory request), partition, accelerator count and
type, wall-clock limit — and nothing else; the task count is 8 across 8
a100 GPUs, a multi-task GPU request. -/
theorem sbatch_header_exact :
    sbatchDirectives.map directiveKind =
      [.jobNameK, .nodeCountK, .taskCountK, .memPerCpuK, .partitionK, .gpuK, .timeLimitK] ∧
    (∀ d ∈ sbatchDirectives, directiveKind d ≠ .cpusPerTaskK) ∧
    (∃ n, 1 < n ∧ declaredTaskCount sbatchDirectives = some n ∧
      declaredGpu sbatchDirectives = some ("a100", n)) :=
  ⟨rfl, by decide, 8, by norm_num, rfl, rfl⟩

/-- C2: the script body contains exactly one live launch command, the
srun line, and no command of the body is a retry loop, conditional
fallback, or trap: a failing launch has no recovery path in the
script. -/
theorem submit_single_launch_no_recovery :
    submitCommands.filter isLaunch =
      [.srunLaunch [.mpiMode "none", .processCount 8] ["python", "lennard_jones_system.py"]] ∧
    ∀ c ∈ submitCommands, handlesFailure c = false :=
  ⟨rfl, by decide⟩

/-- C3: the live srun line specifies exactly three things: a parallel
process count (-n 8), a process launch/binding mode (--mpi=none), and
the target script path (the script of the launched python command,
lennard_jones_system.py). -/
theorem launch_command_three_parts :
    ∃ opts program,
      submitCommands.filter isLaunch = [.srunLaunch opts program] ∧
      opts = [.mpiMode "none", .processCount 8] ∧
      srunProcessCount opts = some 8 ∧
      srunMpiMode opts = some "none" ∧
      targetScript program = some "lennard_jones_system.py" :=
  ⟨[.mpiMode "none", .processCount 8], ["python", "lennard_jones_system.py"],
    rfl, rfl, rfl, rfl, rfl⟩

/-- C4: the notebook's steps occur in the fixed linear order load
config, build geometry, build equation/network nodes, assemble domain,
(set up logging,) run solver, load results, plot: the phase ranks are
monotone along the cell order, so no step precedes one listed before
it, and each listed phase occurs. -/
theorem notebook_flow_linear :
    notebookPhases =
      [.loadConfig, .buildGeometry, .buildGeometry, .buildNodes, .buildNodes,
       .assembleDomain, .assembleDomain, .assembleDomain, .setupLogging, .runSolver,
       .loadResults, .plotResults] ∧
    notebookPhases.Pairwise (fun a b => phaseRank a ≤ phaseRank b) :=
  ⟨rfl, by decide⟩

/-- C5: the config surface is exactly a defaults list naming one base
config, one scheduler choice, one optimizer choice and one loss choice
(plus the Hydra self marker), the scheduler decay rate 0.95 and decay
interval 200, the save formats vtk and npz with both save frequencies
1000, and the step limit 5000. -/
theorem config_surface_exact :
    configYaml.defaults.map defaultsKind =
      [.baseK, .schedulerK, .optimizerK, .lossK, .selfK] ∧
    configYaml.defaults =
      [ .baseConfig "modulus_default", .schedulerChoice "tf_exponential_lr",
        .optimizerChoice "adam", .lossChoice "sum", .selfEntry ] ∧
    configYaml.scheduler = { decay_rate := 95 / 100, decay_steps := 200 } ∧
    configYaml.save_filetypes = ["vtk", "npz"] ∧
    configYaml.training = { rec_results_freq := 1000, rec_constraint_freq := 1000, max_steps := 5000 } :=
  ⟨rfl, rfl, rfl, rfl, rfl⟩

/-- C6: the result file is one compressed numeric archive named after
the single inferencer run, its arrays are named after the per-point
input and output variables of that run, the configuration selects the
npz format, and every use the notebook makes of the loaded arrays is a
plot call. -/
theorem result_archive_for_plotting_only :
    infDataArchive.path = "./outputs/inferencers/" ++ infDataRun.runName ++ ".npz" ∧
    isCompressedNumericArchive infDataArchive.format = true ∧
    infDataArchive.arrayNames = infDataRun.inputVarNames ++ infDataRun.outputVarNames ∧
    "npz" ∈ configYaml.save_filetypes ∧
    ∀ u ∈ loadedArrayUses, isPlotUse u = true :=
  ⟨rfl, rfl, rfl, by decide, by decide⟩

/-- C7: no statement of any notebook cell is a try/except block and no
command of the submission script is a retrying, trapping or fallback
construct: nothing in the repository catches or recovers from a
failure. -/
theorem no_failure_handling_anywhere :
    (∀ s ∈ allNotebookStmts, catchesFailure s = false) ∧
    (∀ c ∈ submitCommands, handlesFailure c = false) :=
  ⟨by decide, by decide⟩

/-- C8: the three parallelism figures agree: the scheduler task count,
the GPU count, and the process count of the srun launch are all 8. -/
theorem parallelism_figures_consistent :
    declaredTaskCount sbatchDirectives = some 8 ∧
    declaredGpu sbatchDirectives = some ("a100", 8) ∧
    launchProcessCount submitCommands = some 8 :=
  ⟨rfl, rfl, rfl⟩

/-- Helper for the analytic check: the first derivative of the plotted
reference curve. -/
theorem deriv_uAnalytic_eq : deriv uAnalytic = fun x : ℝ => x - 0.5 := by
  funext x
  have hx : HasDerivAt (fun y : ℝ => y) 1 x := hasDerivAt_id x
  have h1 : HasDerivAt (fun y : ℝ => y - 1) 1 x := hx.sub_const 1
  have h2 : HasDerivAt (fun y : ℝ => y * (y - 1)) (1 * (x - 1) + x * 1) x := hx.mul h1
  have h : HasDerivAt uAnalytic (0.5 * (1 * (x - 1) + x * 1)) x := h2.const_mul 0.5
  rw [h.deriv]; ring

/-- C9: the reference curve 0.5*(x*(x-1)) of the final cell solves the
notebook's problem exactly: the notebook's f=1.0 resolves to the
constant Number 1, the curve's second derivative equals that source
term everywhere, and the curve meets the boundary target u = 0 at both
endpoints of Line1D(0, 1). -/
theorem analytic_reference_solves_problem :
    notebookSourceTerm = SourceTerm.asNumber 1 ∧
    (∀ x : ℝ, deriv (deriv uAnalytic) x = customPdeF) ∧
    uAnalytic line1dLeft = bcTargetU ∧
    uAnalytic line1dRight = bcTargetU := by
  refine ⟨rfl, ?_, ?_, ?_⟩
  · intro x
    rw [deriv_uAnalytic_eq]
    have h : HasDerivAt (fun y : ℝ => y - 0.5) 1 x := (hasDerivAt_id x).sub_const 0.5
    rw [h.deriv]
    norm_num [customPdeF]
  · norm_num [uAnalytic, line1dLeft, bcTargetU]
  · norm_num [uAnalytic, line1dRight, bcTargetU]

/-- C10: the constructor resolves f by exact type: a str becomes a
symbolic function of x, a float or an int becomes the constant Number,
and every other value — a bool, a sympy expression, None — passes
through unchanged; the dispatch is total, so no case raises. -/
theorem source_term_dispatch (s : String) (q : ℚ) (n : ℤ) (b : Bool) (e : SymExpr) :
    resolveSourceTerm (.pyStr s) = .asFunc s ["x"] ∧
    resolveSourceTerm (.pyFloat q) = .asNumber q ∧
    resolveSourceTerm (.pyInt n) = .asNumber (n : ℚ) ∧
    resolveSourceTerm (.pyBool b) = .unchanged (.pyBool b) ∧
    resolveSourceTerm (.pySympy e) = .unchanged (.pySympy e) ∧
    resolveSourceTerm .pyNone = .unchanged .pyNone :=
  ⟨rfl, rfl, rfl, rfl, rfl, rfl⟩

end AIWorkshop
